import Mathlib

/-
Shallow embedding of the apex AMP configuration layer
(src/apex/amp/frontend.py and src/apex/amp/_amp_state.py).

Python values stored in the options dictionary are modelled by the
inductive `Value`; Python exceptions by `AmpError` inside `Except`.
Printing (advisory output) is dropped; the external `_initialize`
collaborator is represented by recording the handoff in `InitOutcome`.
Error-message strings follow the source with contractions expanded and
quote characters elided.
-/

namespace Amp

/-- Torch dtypes that appear in the presets (torch.float16 / torch.float32). -/
inductive DType where
  | float16
  | float32
deriving DecidableEq, Repr

/-- Python values that flow through the options dictionary: None, booleans,
ints, floats (modelled as rationals), strings, and torch dtypes. -/
inductive Value where
  | none
  | bool (b : Bool)
  | int (n : Int)
  | float (q : Rat)
  | str (s : String)
  | dtype (d : DType)
deriving DecidableEq, Repr

/-- Python truthiness of a `Value` (used by `if _amp_state.hard_override:`). -/
def Value.truthy : Value → Bool
  | Value.none => false
  | Value.bool b => b
  | Value.int n => n != 0
  | Value.float q => q != 0
  | Value.str s => s != ""
  | Value.dtype _ => true

/-- Python exception kinds raised by this layer. -/
inductive AmpError where
  | attributeError (msg : String)
  | runtimeError (msg : String)
  | valueError (msg : String)
  | typeError (msg : String)
  | assertionError (msg : String)
deriving DecidableEq, Repr

/-- Decidable equality on `Except`, needed to state and decide concrete
results of the fallible operations. -/
instance {ε α : Type} [DecidableEq ε] [DecidableEq α] : DecidableEq (Except ε α) := fun a b =>
  match a, b with
  | Except.ok x, Except.ok y =>
      if h : x = y then isTrue (by rw [h]) else isFalse (by intro hc; cases hc; exact h rfl)
  | Except.error x, Except.error y =>
      if h : x = y then isTrue (by rw [h]) else isFalse (by intro hc; cases hc; exact h rfl)
  | Except.ok _, Except.error _ => isFalse (by intro hc; cases hc)
  | Except.error _, Except.ok _ => isFalse (by intro hc; cases hc)

/-- Digits to a natural number (helper for the decimal parser). -/
def digitsToNat (cs : List Char) : Nat :=
  cs.foldl (fun acc c => 10 * acc + (c.toNat - 48)) 0

/-- Modelled from the Python builtin `float(str)` restricted to plain decimal
literals: optional sign, then digits with an optional fractional part
(at least one digit overall). Returns `Option.none` when not parsable. -/
def parsePyFloatString (s : String) : Option Rat :=
  let cs := s.toList
  let signed : Bool × List Char :=
    match cs with
    | '-' :: rest => (true, rest)
    | '+' :: rest => (false, rest)
    | _ => (false, cs)
  let neg := signed.1
  let body := signed.2
  let intPart := body.takeWhile Char.isDigit
  let rest := body.dropWhile Char.isDigit
  let signed2 : Int → Int := fun n => if neg then -n else n
  match rest with
  | [] =>
      if intPart.isEmpty then Option.none
      else some (mkRat (signed2 (digitsToNat intPart)) 1)
  | '.' :: rest2 =>
      let fracPart := rest2.takeWhile Char.isDigit
      let rest3 := rest2.dropWhile Char.isDigit
      if rest3.isEmpty && (!intPart.isEmpty || !fracPart.isEmpty) then
        some (mkRat (signed2 (digitsToNat (intPart ++ fracPart))) (10 ^ fracPart.length))
      else Option.none
  | _ => Option.none

/-- Modelled from the Python builtin `float(value)`: floats pass through,
ints and bools convert, strings are parsed (ValueError on failure),
everything else is a TypeError. -/
def pyFloat : Value → Except AmpError Rat
  | Value.float q => Except.ok q
  | Value.int n => Except.ok (n : Rat)
  | Value.bool b => Except.ok (if b then 1 else 0)
  | Value.str s =>
      match parsePyFloatString s with
      | some q => Except.ok q
      | Option.none =>
          Except.error (AmpError.valueError ("could not convert string to float: " ++ s))
  | Value.none => Except.error (AmpError.typeError "float() argument must be a string or a number")
  | Value.dtype _ => Except.error (AmpError.typeError "float() argument must be a string or a number")

/-- The `Properties.options` dictionary of frontend.py: a fixed set of seven
keys. The keys never change after `__init__` (the setter ignores unknown
names and never inserts), so the dictionary is modelled as a structure. -/
structure Properties where
  enabled : Value
  opt_level : Value
  cast_model_type : Value
  patch_torch_functions : Value
  keep_batchnorm_fp32 : Value
  master_weights : Value
  loss_scale : Value
deriving DecidableEq, Repr

/-- The recognized option keys, in the order of `Properties.__init__`. -/
def optionKeys : List String :=
  ["enabled", "opt_level", "cast_model_type", "patch_torch_functions",
   "keep_batchnorm_fp32", "master_weights", "loss_scale"]

/-- `Properties.__init__`: the default options dictionary. -/
def Properties.init : Properties :=
  { enabled := Value.bool false
    opt_level := Value.none
    cast_model_type := Value.none
    patch_torch_functions := Value.bool false
    keep_batchnorm_fp32 := Value.none
    master_weights := Value.bool false
    loss_scale := Value.float 1 }

/-- Raw dictionary read `self.options[name]` for a recognized key
(identity on unrecognized names; only called under the key check). -/
def Properties.lookup (p : Properties) (name : String) : Value :=
  if name = "enabled" then p.enabled
  else if name = "opt_level" then p.opt_level
  else if name = "cast_model_type" then p.cast_model_type
  else if name = "patch_torch_functions" then p.patch_torch_functions
  else if name = "keep_batchnorm_fp32" then p.keep_batchnorm_fp32
  else if name = "master_weights" then p.master_weights
  else if name = "loss_scale" then p.loss_scale
  else Value.none

/-- Raw dictionary write `self.options[name] = v` for a recognized key
(identity on unrecognized names; only called under the key check). -/
def Properties.store (p : Properties) (name : String) (v : Value) : Properties :=
  if name = "enabled" then { p with enabled := v }
  else if name = "opt_level" then { p with opt_level := v }
  else if name = "cast_model_type" then { p with cast_model_type := v }
  else if name = "patch_torch_functions" then { p with patch_torch_functions := v }
  else if name = "keep_batchnorm_fp32" then { p with keep_batchnorm_fp32 := v }
  else if name = "master_weights" then { p with master_weights := v }
  else if name = "loss_scale" then { p with loss_scale := v }
  else p

/-- `Properties.__getattr__`: returns the stored value for a recognized key,
raises AttributeError otherwise. -/
def Properties.get (p : Properties) (name : String) : Except AmpError Value :=
  if optionKeys.contains name then Except.ok (p.lookup name)
  else Except.error (AmpError.attributeError ("Properties object has no attribute " ++ name))

/-- `Properties.__setattr__` (in the steady state where `options` exists in
`__dict__`): coerces `loss_scale` and `keep_batchnorm_fp32`, stores other
recognized keys as given, and silently falls through — returning the object
unchanged — when `name` is not a recognized key (the source has no else
branch for that case). -/
def Properties.set (p : Properties) (name : String) (v : Value) : Except AmpError Properties :=
  if optionKeys.contains name then
    if name = "loss_scale" then
      if v = Value.str "dynamic" then Except.ok (p.store name v)
      else
        match pyFloat v with
        | Except.ok q => Except.ok (p.store name (Value.float q))
        | Except.error e => Except.error e
    else if name = "keep_batchnorm_fp32" then
      if v = Value.str "False" then Except.ok (p.store name (Value.bool false))
      else if v = Value.str "True" then Except.ok (p.store name (Value.bool true))
      else if v = Value.bool true ∨ v = Value.bool false ∨ v = Value.none then
        Except.ok (p.store name v)
      else
        Except.error (AmpError.assertionError
          "keep_batchnorm_fp32 must be a boolean, the string True or False, or None")
    else Except.ok (p.store name v)
  else Except.ok p

/-- `O3.__call__`: pure FP16 training preset. -/
def O3.call (p : Properties) : Except AmpError Properties := do
  let p ← p.set "enabled" (Value.bool true)
  let p ← p.set "opt_level" (Value.str "O3")
  let p ← p.set "cast_model_type" (Value.dtype DType.float16)
  let p ← p.set "patch_torch_functions" (Value.bool false)
  let p ← p.set "keep_batchnorm_fp32" (Value.bool false)
  let p ← p.set "master_weights" (Value.bool false)
  let p ← p.set "loss_scale" (Value.float 1)
  return p

/-- `O2.__call__`: FP16 with FP32 batchnorm and FP32 master weights. -/
def O2.call (p : Properties) : Except AmpError Properties := do
  let p ← p.set "enabled" (Value.bool true)
  let p ← p.set "opt_level" (Value.str "O2")
  let p ← p.set "cast_model_type" (Value.dtype DType.float16)
  let p ← p.set "patch_torch_functions" (Value.bool false)
  let p ← p.set "keep_batchnorm_fp32" (Value.bool true)
  let p ← p.set "master_weights" (Value.bool true)
  let p ← p.set "loss_scale" (Value.str "dynamic")
  return p

/-- `O1.__call__`: automatic casts around Pytorch functions. -/
def O1.call (p : Properties) : Except AmpError Properties := do
  let p ← p.set "enabled" (Value.bool true)
  let p ← p.set "opt_level" (Value.str "O1")
  let p ← p.set "cast_model_type" (Value.bool false)
  let p ← p.set "patch_torch_functions" (Value.bool true)
  let p ← p.set "keep_batchnorm_fp32" Value.none
  let p ← p.set "master_weights" (Value.bool false)
  let p ← p.set "loss_scale" (Value.str "dynamic")
  return p

/-- `O0.__call__`: pure FP32 training preset. -/
def O0.call (p : Properties) : Except AmpError Properties := do
  let p ← p.set "enabled" (Value.bool true)
  let p ← p.set "opt_level" (Value.str "O0")
  let p ← p.set "cast_model_type" (Value.dtype DType.float32)
  let p ← p.set "patch_torch_functions" (Value.bool false)
  let p ← p.set "keep_batchnorm_fp32" Value.none
  let p ← p.set "master_weights" (Value.bool false)
  let p ← p.set "loss_scale" (Value.float 1)
  return p

/-- The `opt_levels` dictionary of frontend.py. -/
def opt_levels : List (String × (Properties → Except AmpError Properties)) :=
  [("O3", O3.call), ("O2", O2.call), ("O1", O1.call), ("O0", O0.call)]

/-- Dictionary lookup `opt_levels[opt_level]`, with the Python `None` default
for the parameter modelled by `Option String`. -/
def optLevelLookup (o : Option String) : Option (Properties → Except AmpError Properties) :=
  match o with
  | Option.none => Option.none
  | some s => opt_levels.lookup s

/-- How Python str-formats the `opt_level` argument into the error message. -/
def formatOptLevel : Option String → String
  | Option.none => "None"
  | some s => s

/-- `AmpState` of _amp_state.py: `hard_override` starts as the boolean False;
`opt_properties` does not exist until `initialize` assigns it, modelled by
`Option Properties`. -/
structure AmpState where
  hard_override : Value
  opt_properties : Option Properties
deriving DecidableEq, Repr

/-- `AmpState.__init__` (the module-level `_amp_state` object at import). -/
def AmpState.init : AmpState :=
  { hard_override := Value.bool false, opt_properties := Option.none }

/-- The kwargs-override loop of `initialize`: for each (k, v) in order, an
unrecognized key raises RuntimeError immediately; a recognized key with a
non-None value goes through the `Properties` setter; a None value is
skipped. Returns the properties as mutated so far together with the first
error, if any (the source mutates the shared object in place, so earlier
successful writes survive a later failure). -/
def applyOverrides (props : Properties) (kwargs : List (String × Value)) :
    Properties × Option AmpError :=
  match kwargs with
  | [] => (props, Option.none)
  | (k, v) :: rest =>
      if optionKeys.contains k then
        if v ≠ Value.none then
          match props.set k v with
          | Except.ok p2 => applyOverrides p2 rest
          | Except.error e => (props, some e)
        else applyOverrides props rest
      else (props, some (AmpError.runtimeError ("Unexpected kwarg " ++ k)))

/-- Result of a successful `initialize` call: the disabled path returns the
inputs unmodified; the enabled path hands models, optimizers, and the
resolved properties to the external `_initialize` collaborator, recorded
here as data. -/
inductive InitOutcome (α β : Type) where
  | passthrough (models : α) (optimizers : β)
  | delegated (models : α) (optimizers : β) (props : Properties)
deriving DecidableEq, Repr

/-- Tail of the enabled path of `initialize`, after the preset has populated
`props`: run the override loop, publish the mutated properties into the
shared state, and either re-raise the loop's error or hand everything to the
external `_initialize` collaborator. -/
def ampInitEnabled {α β : Type} (st : AmpState) (models : α) (optimizers : β)
    (props : Properties) (kwargs : List (String × Value)) :
    AmpState × Except AmpError (InitOutcome α β) :=
  let res := applyOverrides props kwargs
  let st2 : AmpState := { st with opt_properties := some res.1 }
  match res.2 with
  | some e => (st2, Except.error e)
  | Option.none => (st2, Except.ok (InitOutcome.delegated models optimizers res.1))

/-- The `initialize` entry point of frontend.py, as a function of the prior
`_amp_state`. Returns the post-call state (exceptions leave the mutations
made so far) and either the outcome or the raised error. Keyword arguments
are the `**kwargs` dictionary in insertion order. -/
def ampInit {α β : Type} (st : AmpState) (models : α) (optimizers : β)
    (enabled : Bool) (opt_level : Option String) (kwargs : List (String × Value)) :
    AmpState × Except AmpError (InitOutcome α β) :=
  if enabled = false then
    let st1 :=
      match kwargs.lookup "hard_override" with
      | some v => { st with hard_override := v }
      | Option.none => st
    ({ st1 with opt_properties := some Properties.init },
      Except.ok (InitOutcome.passthrough models optimizers))
  else
    match optLevelLookup opt_level with
    | Option.none =>
        (st, Except.error (AmpError.runtimeError
          ("Unexpected optimization level " ++ formatOptLevel opt_level ++
            ". Options are O0, O1, O2, O3.")))
    | some preset =>
        match preset Properties.init with
        | Except.error e => (st, Except.error e)
        | Except.ok props => ampInitEnabled st models optimizers props kwargs

/-- `warn_or_err` of _amp_state.py: warns (returning the printed line) when
`hard_override` is truthy, raises RuntimeError with remediation guidance
otherwise. -/
def warn_or_err (st : AmpState) (msg : String) : Except AmpError String :=
  if st.hard_override.truthy then Except.ok ("Warning:  " ++ msg)
  else
    Except.error (AmpError.runtimeError
      (msg ++ "  If you are sure you know what you are doing, supply " ++
        "hard_override=True to amp.initialize."))

/-- Expected O0 configuration, following the words of the spec table in
section 4.2 (to be compared against the source preset). -/
def O0_defaults : Properties :=
  { enabled := Value.bool true
    opt_level := Value.str "O0"
    cast_model_type := Value.dtype DType.float32
    patch_torch_functions := Value.bool false
    keep_batchnorm_fp32 := Value.none
    master_weights := Value.bool false
    loss_scale := Value.float 1 }

/-- Expected O1 configuration from the spec table in section 4.2. -/
def O1_defaults : Properties :=
  { enabled := Value.bool true
    opt_level := Value.str "O1"
    cast_model_type := Value.bool false
    patch_torch_functions := Value.bool true
    keep_batchnorm_fp32 := Value.none
    master_weights := Value.bool false
    loss_scale := Value.str "dynamic" }

/-- Expected O2 configuration from the spec table in section 4.2. -/
def O2_defaults : Properties :=
  { enabled := Value.bool true
    opt_level := Value.str "O2"
    cast_model_type := Value.dtype DType.float16
    patch_torch_functions := Value.bool false
    keep_batchnorm_fp32 := Value.bool true
    master_weights := Value.bool true
    loss_scale := Value.str "dynamic" }

/-- Expected O3 configuration from the spec table in section 4.2. -/
def O3_defaults : Properties :=
  { enabled := Value.bool true
    opt_level := Value.str "O3"
    cast_model_type := Value.dtype DType.float16
    patch_torch_functions := Value.bool false
    keep_batchnorm_fp32 := Value.bool false
    master_weights := Value.bool false
    loss_scale := Value.float 1 }

/-- The forms the keep_batchnorm_fp32 setter accepts, as enumerated by the
assertion message in the source. -/
def kbfAllowed (v : Value) : Bool :=
  v == Value.str "True" || v == Value.str "False" ||
    v == Value.bool true || v == Value.bool false || v == Value.none

/-- Unfolding of the setter at the loss_scale key. -/
theorem set_loss_scale_eq (p : Properties) (v : Value) :
    Properties.set p "loss_scale" v =
      (if v = Value.str "dynamic" then Except.ok { p with loss_scale := v }
       else
         match pyFloat v with
         | Except.ok q => Except.ok { p with loss_scale := Value.float q }
         | Except.error e => Except.error e) := rfl

/-- Unfolding of the setter at the keep_batchnorm_fp32 key. -/
theorem set_kbf_eq (p : Properties) (v : Value) :
    Properties.set p "keep_batchnorm_fp32" v =
      (if v = Value.str "False" then Except.ok { p with keep_batchnorm_fp32 := Value.bool false }
       else if v = Value.str "True" then Except.ok { p with keep_batchnorm_fp32 := Value.bool true }
       else if v = Value.bool true ∨ v = Value.bool false ∨ v = Value.none then
         Except.ok { p with keep_batchnorm_fp32 := v }
       else
         Except.error (AmpError.assertionError
           "keep_batchnorm_fp32 must be a boolean, the string True or False, or None")) := rfl

/-- Claim C1: each of the four opt-level presets, applied to a freshly
constructed Properties object, yields exactly the tabulated configuration of
spec section 4.2, with enabled=true and opt_level stamped with the preset
name in every case. -/
theorem C1_presets_match_table :
    O0.call Properties.init = Except.ok O0_defaults ∧
    O1.call Properties.init = Except.ok O1_defaults ∧
    O2.call Properties.init = Except.ok O2_defaults ∧
    O3.call Properties.init = Except.ok O3_defaults := by
  refine ⟨rfl, rfl, rfl, rfl⟩

/-- Claim C2: the loss_scale setter stores the token dynamic verbatim and
otherwise float-coerces the value, propagating the coercion failure when the
value is not numeric-parsable; the keep_batchnorm_fp32 setter coerces the
strings True and False to booleans, stores booleans and the None sentinel as
given, and rejects every other value with the assertion error; and in each
successful case a subsequent get returns the coerced value. -/
theorem C2_setter_coercion_roundtrip (p : Properties) (v1 v2 v3 : Value) (q : Rat)
    (e : AmpError) (b : Bool)
    (h1 : v1 ≠ Value.str "dynamic") (h2 : pyFloat v1 = Except.ok q)
    (h3 : v2 ≠ Value.str "dynamic") (h4 : pyFloat v2 = Except.error e)
    (h5 : kbfAllowed v3 = false) :
    (Properties.set p "loss_scale" (Value.str "dynamic")).bind
        (fun p1 => Properties.get p1 "loss_scale") = Except.ok (Value.str "dynamic") ∧
    (Properties.set p "loss_scale" v1).bind
        (fun p1 => Properties.get p1 "loss_scale") = Except.ok (Value.float q) ∧
    Properties.set p "loss_scale" v2 = Except.error e ∧
    (Properties.set p "keep_batchnorm_fp32" (Value.str "True")).bind
        (fun p1 => Properties.get p1 "keep_batchnorm_fp32") = Except.ok (Value.bool true) ∧
    (Properties.set p "keep_batchnorm_fp32" (Value.str "False")).bind
        (fun p1 => Properties.get p1 "keep_batchnorm_fp32") = Except.ok (Value.bool false) ∧
    (Properties.set p "keep_batchnorm_fp32" (Value.bool b)).bind
        (fun p1 => Properties.get p1 "keep_batchnorm_fp32") = Except.ok (Value.bool b) ∧
    (Properties.set p "keep_batchnorm_fp32" Value.none).bind
        (fun p1 => Properties.get p1 "keep_batchnorm_fp32") = Except.ok Value.none ∧
    Properties.set p "keep_batchnorm_fp32" v3 =
      Except.error (AmpError.assertionError
        "keep_batchnorm_fp32 must be a boolean, the string True or False, or None") := by
  have hk : v3 ≠ Value.str "True" ∧ v3 ≠ Value.str "False" ∧
      v3 ≠ Value.bool true ∧ v3 ≠ Value.bool false ∧ v3 ≠ Value.none := by
    simpa [kbfAllowed, not_or, and_assoc] using h5
  refine ⟨rfl, ?_, ?_, rfl, rfl, ?_, rfl, ?_⟩
  · rw [set_loss_scale_eq, if_neg h1, h2]
    rfl
  · rw [set_loss_scale_eq, if_neg h3, h4]
  · cases b <;> rfl
  · rw [set_kbf_eq, if_neg hk.2.1, if_neg hk.1, if_neg]
    rintro (hc | hc | hc)
    · exact hk.2.2.1 hc
    · exact hk.2.2.2.1 hc
    · exact hk.2.2.2.2 hc

/-- Witness for C2 at concrete inputs: a fresh Properties object,
loss_scale coerced from the string 128.0, a non-parsable string, and an
ill-typed keep_batchnorm_fp32 value. -/
theorem C2_setter_coercion_roundtrip_witness :
    (Properties.set Properties.init "loss_scale" (Value.str "dynamic")).bind
        (fun p1 => Properties.get p1 "loss_scale") = Except.ok (Value.str "dynamic") ∧
    (Properties.set Properties.init "loss_scale" (Value.str "128.0")).bind
        (fun p1 => Properties.get p1 "loss_scale") = Except.ok (Value.float 128) ∧
    Properties.set Properties.init "loss_scale" (Value.str "garbage") =
      Except.error (AmpError.valueError "could not convert string to float: garbage") ∧
    (Properties.set Properties.init "keep_batchnorm_fp32" (Value.str "True")).bind
        (fun p1 => Properties.get p1 "keep_batchnorm_fp32") = Except.ok (Value.bool true) ∧
    (Properties.set Properties.init "keep_batchnorm_fp32" (Value.str "False")).bind
        (fun p1 => Properties.get p1 "keep_batchnorm_fp32") = Except.ok (Value.bool false) ∧
    (Properties.set Properties.init "keep_batchnorm_fp32" (Value.bool true)).bind
        (fun p1 => Properties.get p1 "keep_batchnorm_fp32") = Except.ok (Value.bool true) ∧
    (Properties.set Properties.init "keep_batchnorm_fp32" Value.none).bind
        (fun p1 => Properties.get p1 "keep_batchnorm_fp32") = Except.ok Value.none ∧
    Properties.set Properties.init "keep_batchnorm_fp32" (Value.float 2) =
      Except.error (AmpError.assertionError
        "keep_batchnorm_fp32 must be a boolean, the string True or False, or None") :=
  C2_setter_coercion_roundtrip Properties.init (Value.str "128.0") (Value.str "garbage")
    (Value.float 2) 128 (AmpError.valueError "could not convert string to float: garbage") true
    (by decide) (by decide) (by decide) (by decide) (by decide)

/-- Claim C3 counterexample: setting an unrecognized key on a Properties
object does not fail; the setter falls through silently and the object is
returned unchanged. -/
theorem C3_counterexample :
    Properties.set Properties.init "bogus_option" (Value.bool true) =
      Except.ok Properties.init := by decide

/-- Claim C3 (amended): reading an unrecognized key fails with the
unknown-attribute error naming the key, but setting an unrecognized key
silently succeeds without mutating the object — the setter has no else
branch for unrecognized names. -/
theorem C3_unknown_key (p : Properties) (name : String) (v : Value)
    (h : optionKeys.contains name = false) :
    Properties.get p name =
      Except.error (AmpError.attributeError ("Properties object has no attribute " ++ name)) ∧
    Properties.set p name v = Except.ok p := by
  have h2 : name ∉ optionKeys := by simpa using h
  constructor <;> simp [Properties.get, Properties.set, h2]

/-- Witness for C3 at a concrete unrecognized key. -/
theorem C3_unknown_key_witness :
    Properties.get Properties.init "typo_key" =
      Except.error (AmpError.attributeError ("Properties object has no attribute " ++ "typo_key")) ∧
    Properties.set Properties.init "typo_key" (Value.bool true) = Except.ok Properties.init :=
  C3_unknown_key Properties.init "typo_key" (Value.bool true) (by decide)

/-- Claim C4: an enabled call whose opt_level misses the opt_levels table
(including the default None and strings such as O5) raises the Bad-opt-level
RuntimeError listing the accepted values, and returns the shared state
exactly as it was — no mutation. -/
theorem C4_bad_opt_level {α β : Type} (st : AmpState) (models : α) (optimizers : β)
    (opt_level : Option String) (kwargs : List (String × Value))
    (h : optLevelLookup opt_level = Option.none) :
    ampInit st models optimizers true opt_level kwargs =
      (st, Except.error (AmpError.runtimeError
        ("Unexpected optimization level " ++ formatOptLevel opt_level ++
          ". Options are O0, O1, O2, O3."))) := by
  simp [ampInit, h]

/-- Witness for C4 at opt_level O5 with a pending override. -/
theorem C4_bad_opt_level_witness :
    ampInit AmpState.init (0 : Nat) (0 : Nat) true (some "O5") [("loss_scale", Value.float 2)] =
      (AmpState.init, Except.error (AmpError.runtimeError
        ("Unexpected optimization level " ++ formatOptLevel (some "O5") ++
          ". Options are O0, O1, O2, O3."))) :=
  C4_bad_opt_level AmpState.init 0 0 (some "O5") [("loss_scale", Value.float 2)] rfl

/-- Claim C5: a disabled call is an identity pass-through on models and
optimizers, resets the shared Configuration Set to a blank default
Properties object, and stores a supplied hard_override override into the
Global Mode Flag (leaving the flag alone when none is supplied). -/
theorem C5_disabled_passthrough {α β : Type} (st : AmpState) (models : α) (optimizers : β)
    (opt_level : Option String) (kwargs kwargs2 : List (String × Value)) (v : Value)
    (h : kwargs.lookup "hard_override" = some v)
    (h2 : kwargs2.lookup "hard_override" = Option.none) :
    (ampInit st models optimizers false opt_level kwargs).2 =
      Except.ok (InitOutcome.passthrough models optimizers) ∧
    (ampInit st models optimizers false opt_level kwargs2).2 =
      Except.ok (InitOutcome.passthrough models optimizers) ∧
    ((ampInit st models optimizers false opt_level kwargs).1).opt_properties =
      some Properties.init ∧
    ((ampInit st models optimizers false opt_level kwargs2).1).opt_properties =
      some Properties.init ∧
    ((ampInit st models optimizers false opt_level kwargs).1).hard_override = v ∧
    ((ampInit st models optimizers false opt_level kwargs2).1).hard_override =
      st.hard_override := by
  refine ⟨?_, ?_, ?_, ?_, ?_, ?_⟩ <;> simp [ampInit, h, h2]

/-- Witness for C5: a disabled call with a hard_override override and one
with unrelated (even ill-typed and unrecognized) overrides. -/
theorem C5_disabled_passthrough_witness :
    (ampInit AmpState.init (1 : Nat) (2 : Nat) false (some "O2")
        [("hard_override", Value.bool true)]).2 =
      Except.ok (InitOutcome.passthrough 1 2) ∧
    (ampInit AmpState.init (1 : Nat) (2 : Nat) false (some "O2")
        [("bogus_key", Value.str "junk")]).2 =
      Except.ok (InitOutcome.passthrough 1 2) ∧
    ((ampInit AmpState.init (1 : Nat) (2 : Nat) false (some "O2")
        [("hard_override", Value.bool true)]).1).opt_properties = some Properties.init ∧
    ((ampInit AmpState.init (1 : Nat) (2 : Nat) false (some "O2")
        [("bogus_key", Value.str "junk")]).1).opt_properties = some Properties.init ∧
    ((ampInit AmpState.init (1 : Nat) (2 : Nat) false (some "O2")
        [("hard_override", Value.bool true)]).1).hard_override = Value.bool true ∧
    ((ampInit AmpState.init (1 : Nat) (2 : Nat) false (some "O2")
        [("bogus_key", Value.str "junk")]).1).hard_override = AmpState.init.hard_override :=
  C5_disabled_passthrough AmpState.init 1 2 (some "O2")
    [("hard_override", Value.bool true)] [("bogus_key", Value.str "junk")]
    (Value.bool true) (by decide) (by decide)

/-- Claim C6 counterexample: with enabled=true and the valid opt_level O1,
passing hard_override as a named override raises the unknown-kwarg
RuntimeError, and the Global Mode Flag stays at its default false. -/
theorem C6_counterexample :
    ampInit AmpState.init (0 : Nat) (0 : Nat) true (some "O1")
        [("hard_override", Value.bool true)] =
      ({ hard_override := Value.bool false, opt_properties := some O1_defaults },
        Except.error (AmpError.runtimeError "Unexpected kwarg hard_override")) := by decide

/-- Claim C6 (amended): the named overrides accepted on the enabled path are
exactly the seven recognized option keys; hard_override is honored only on
the enabled=false path, where it sets the Global Mode Flag, while an
enabled=true call with a valid opt_level and a hard_override override raises
the unknown-kwarg error and leaves the flag unchanged. -/
theorem C6_hard_override_only_when_disabled {α β : Type} (st : AmpState)
    (models : α) (optimizers : β) (lvl : String) (v : Value)
    (h : lvl = "O0" ∨ lvl = "O1" ∨ lvl = "O2" ∨ lvl = "O3") :
    (ampInit st models optimizers true (some lvl) [("hard_override", v)]).2 =
      Except.error (AmpError.runtimeError "Unexpected kwarg hard_override") ∧
    ((ampInit st models optimizers true (some lvl) [("hard_override", v)]).1).hard_override =
      st.hard_override ∧
    ((ampInit st models optimizers false (some lvl) [("hard_override", v)]).1).hard_override =
      v := by
  rcases h with rfl | rfl | rfl | rfl <;> exact ⟨rfl, rfl, rfl⟩

/-- Witness for C6 at opt_level O2. -/
theorem C6_hard_override_only_when_disabled_witness :
    (ampInit AmpState.init (0 : Nat) (0 : Nat) true (some "O2")
        [("hard_override", Value.bool true)]).2 =
      Except.error (AmpError.runtimeError "Unexpected kwarg hard_override") ∧
    ((ampInit AmpState.init (0 : Nat) (0 : Nat) true (some "O2")
        [("hard_override", Value.bool true)]).1).hard_override = AmpState.init.hard_override ∧
    ((ampInit AmpState.init (0 : Nat) (0 : Nat) false (some "O2")
        [("hard_override", Value.bool true)]).1).hard_override = Value.bool true :=
  C6_hard_override_only_when_disabled AmpState.init 0 0 "O2" (Value.bool true)
    (Or.inr (Or.inr (Or.inl rfl)))

/-- Reduction of an enabled O2 call to the override loop over the O2 preset
defaults. -/
theorem ampInit_O2_overrides {α β : Type} (st : AmpState) (models : α) (optimizers : β)
    (kwargs : List (String × Value)) :
    ampInit st models optimizers true (some "O2") kwargs =
      ampInitEnabled st models optimizers O2_defaults kwargs := rfl

/-- Enumeration of the recognized option keys from a positive contains test. -/
theorem contains_optionKeys_cases (k : String) (h : optionKeys.contains k = true) :
    k = "enabled" ∨ k = "opt_level" ∨ k = "cast_model_type" ∨
    k = "patch_torch_functions" ∨ k = "keep_batchnorm_fp32" ∨
    k = "master_weights" ∨ k = "loss_scale" := by
  simpa [optionKeys] using h

/-- Claim C7 counterexample: an override with an unrecognized key whose value
is None raises the unknown-kwarg error instead of being ignored — the key
check runs before the None check. -/
theorem C7_counterexample :
    ampInit AmpState.init (0 : Nat) (0 : Nat) true (some "O1") [("bogus_key", Value.none)] =
      ({ hard_override := Value.bool false, opt_properties := some O1_defaults },
        Except.error (AmpError.runtimeError "Unexpected kwarg bogus_key")) := by decide

/-- Claim C7 (amended): the recognized-key check applies to every override,
None-valued or not; a recognized override whose value is None is skipped
without mutating the resolved configuration, while an override with an
unrecognized key raises the unknown-kwarg error even when its value is
None. -/
theorem C7_none_override_handling {α β : Type} (st : AmpState) (models : α) (optimizers : β)
    (k1 k2 : String) (v : Value)
    (h1 : optionKeys.contains k1 = true) (h2 : optionKeys.contains k2 = false) :
    ampInit st models optimizers true (some "O2") [(k1, Value.none)] =
      ({ st with opt_properties := some O2_defaults },
        Except.ok (InitOutcome.delegated models optimizers O2_defaults)) ∧
    ampInit st models optimizers true (some "O2") [(k2, v)] =
      ({ st with opt_properties := some O2_defaults },
        Except.error (AmpError.runtimeError ("Unexpected kwarg " ++ k2))) := by
  constructor
  · rcases contains_optionKeys_cases k1 h1 with rfl | rfl | rfl | rfl | rfl | rfl | rfl <;> rfl
  · rw [ampInit_O2_overrides]
    have ha : applyOverrides O2_defaults [(k2, v)] =
        (O2_defaults, some (AmpError.runtimeError ("Unexpected kwarg " ++ k2))) := by
      unfold applyOverrides
      rw [h2]
      simp
    unfold ampInitEnabled
    rw [ha]

/-- Witness for C7: a recognized key with value None and an unrecognized key
with value None. -/
theorem C7_none_override_handling_witness :
    ampInit AmpState.init (0 : Nat) (0 : Nat) true (some "O2") [("loss_scale", Value.none)] =
      ({ AmpState.init with opt_properties := some O2_defaults },
        Except.ok (InitOutcome.delegated 0 0 O2_defaults)) ∧
    ampInit AmpState.init (0 : Nat) (0 : Nat) true (some "O2") [("fused_optimizer", Value.none)] =
      ({ AmpState.init with opt_properties := some O2_defaults },
        Except.error (AmpError.runtimeError ("Unexpected kwarg " ++ "fused_optimizer"))) :=
  C7_none_override_handling AmpState.init 0 0 "loss_scale" "fused_optimizer" Value.none
    (by decide) (by decide)

/-- Claim C8: a failed enabled call leaves earlier successful overrides
applied in the shared Configuration Set. With O1 and the override list
master_weights=True, loss_scale=garbage, the call raises the float-coercion
error, yet the stored options keep master_weights=True — partial mutation is
observable after the failure. -/
theorem C8_partial_mutation_observable :
    ampInit AmpState.init (0 : Nat) (0 : Nat) true (some "O1")
        [("master_weights", Value.bool true), ("loss_scale", Value.str "garbage")] =
      ({ hard_override := Value.bool false,
         opt_properties := some { O1_defaults with master_weights := Value.bool true } },
        Except.error (AmpError.valueError "could not convert string to float: garbage")) ∧
    (Properties.get { O1_defaults with master_weights := Value.bool true } "master_weights") =
      Except.ok (Value.bool true) := by decide

/-- Claim C9: warn_or_err emits the message as a warning and returns
normally when the Global Mode Flag is truthy, and raises a RuntimeError
containing the original message plus the hard_override=True downgrade
guidance when the flag is not set. -/
theorem C9_warn_or_err_dispatch (st1 st2 : AmpState) (msg : String)
    (h1 : Value.truthy st1.hard_override = true)
    (h2 : Value.truthy st2.hard_override = false) :
    warn_or_err st1 msg = Except.ok ("Warning:  " ++ msg) ∧
    warn_or_err st2 msg =
      Except.error (AmpError.runtimeError
        (msg ++ "  If you are sure you know what you are doing, supply " ++
          "hard_override=True to amp.initialize.")) := by
  constructor <;> simp [warn_or_err, h1, h2]

/-- Witness for C9: the flag set by an earlier call versus the default
state. -/
theorem C9_warn_or_err_dispatch_witness :
    warn_or_err { hard_override := Value.bool true, opt_properties := Option.none }
        "tensor type mismatch" = Except.ok ("Warning:  " ++ "tensor type mismatch") ∧
    warn_or_err AmpState.init "tensor type mismatch" =
      Except.error (AmpError.runtimeError
        ("tensor type mismatch" ++ "  If you are sure you know what you are doing, supply " ++
          "hard_override=True to amp.initialize.")) :=
  C9_warn_or_err_dispatch { hard_override := Value.bool true, opt_properties := Option.none }
    AmpState.init "tensor type mismatch" rfl rfl

/-- Looking up hard_override in the overrides filtered down to their
hard_override entries gives the same result as in the original list. -/
theorem lookup_filter_hard_override (kwargs : List (String × Value)) :
    (kwargs.filter (fun kv => kv.1 == "hard_override")).lookup "hard_override" =
      kwargs.lookup "hard_override" := by
  induction kwargs with
  | nil => rfl
  | cons kv rest ih =>
      rcases kv with ⟨k, v⟩
      by_cases hk : k = "hard_override"
      · subst hk
        simp [List.filter, List.lookup]
      · have hb : (k == "hard_override") = false := by simp [hk]
        have hb2 : ("hard_override" == k) = false := by simp [Ne.symm hk]
        simp [List.filter, List.lookup, hb, hb2, ih]

/-- Claim C10: a disabled call performs no validation at all — it never
raises, returns the inputs as a pass-through, and its entire result is
unchanged when every keyword argument other than hard_override (unrecognized
keys, non-None values, ill-typed values alike) is discarded. -/
theorem C10_disabled_skips_validation {α β : Type} (st : AmpState) (models : α)
    (optimizers : β) (opt_level : Option String) (kwargs : List (String × Value)) :
    (ampInit st models optimizers false opt_level kwargs).2 =
      Except.ok (InitOutcome.passthrough models optimizers) ∧
    ampInit st models optimizers false opt_level kwargs =
      ampInit st models optimizers false opt_level
        (kwargs.filter (fun kv => kv.1 == "hard_override")) := by
  constructor
  · rcases hl : kwargs.lookup "hard_override" with _ | v <;> simp [ampInit, hl]
  · simp [ampInit, lookup_filter_hard_override]

end Amp
